import Mathlib

/-
Shallow embedding of the OSRM-Batch-Routing backend (TypeScript sources under
src/backend/src) together with theorems settling the specification claims.

Conventions of the embedding:
* JavaScript numbers are modelled as Int (counters, timestamps) or Rat
  (coordinates, distances); timestamps are naturals (milliseconds).
* A thrown exception is modelled with Except; a caught exception is the
  matching branch of the Lean definition.
* Optional TypeScript fields become Option; the JavaScript truthiness tests of
  the source are translated explicitly (undefined, 0 and the empty string are
  falsy).
-/

namespace OSRMBatch

/-! ## Job data model (src/backend/src/types, interface BatchJob) -/

inductive JobStatus where
  | pending
  | processing
  | completed
  | failed
deriving DecidableEq, Repr

/-- Progress counters of a job.  The source stores plain JavaScript numbers;
they are modelled as integers because the update operation adds possibly
negative differences. -/
structure JobProgress where
  total : Int
  processed : Int
  successful : Int
  failed : Int
deriving DecidableEq, Repr

/-- A batch job record (interface BatchJob).  The configuration is kept out of
this record; the operations modelled below do not read it through the job. -/
structure BatchJob where
  id : String
  status : JobStatus
  progress : JobProgress
  startedAt : Option Nat
  completedAt : Option Nat
  error : Option String
deriving DecidableEq, Repr

/-- JobService.createJob: the job record allocated at submission, with status
pending, total taken from the row count of the uploaded file, the other
counters zero, startedAt the current time. -/
def createJob (jobId : String) (rowCount : Int) (now : Nat) : BatchJob :=
  { id := jobId
    status := JobStatus.pending
    progress := { total := rowCount, processed := 0, successful := 0, failed := 0 }
    startedAt := some now
    completedAt := none
    error := none }

/-- JobService.updateJobStatus.  The source sets the status unconditionally,
stores the error only when it is truthy (defined and nonempty), and stamps
completedAt whenever the new status is completed or failed.  There is no guard
on the previous status. -/
def updateJobStatus (job : BatchJob) (status : JobStatus) (error : Option String)
    (now : Nat) : BatchJob :=
  let j1 : BatchJob := { job with status := status }
  let j2 : BatchJob :=
    match error with
    | some e => if e = "" then j1 else { j1 with error := some e }
    | none => j1
  if status = JobStatus.completed ∨ status = JobStatus.failed then
    { j2 with completedAt := some now }
  else j2

/-- JobService.updateJobProgress: adds the deltas to the counters; the failed
counter receives the difference processed - successful.  No status check. -/
def updateJobProgress (job : BatchJob) (processed successful : Int) : BatchJob :=
  { job with progress :=
      { job.progress with
          processed := job.progress.processed + processed
          successful := job.progress.successful + successful
          failed := job.progress.failed + (processed - successful) } }

/-- JobService.cancelJob restricted to an existing job: returns false and
leaves the job unchanged when the status is already completed or failed,
otherwise sets status failed with the message written by the source. -/
def cancelJob (job : BatchJob) (now : Nat) : Bool × BatchJob :=
  if job.status = JobStatus.completed ∨ job.status = JobStatus.failed then
    (false, job)
  else
    (true, updateJobStatus job JobStatus.failed (some "Job cancelled by user") now)

/-- Tail of JobService.processJob after the per-row loop: the save of the
GeoJSON result file is wrapped in try/catch whose catch only logs (the source
comment reads: Continue with job completion even if file save fails), and the
job is then marked completed in both branches. -/
def finishAfterSave (job : BatchJob) (saveOutcome : Except String Unit)
    (now : Nat) : BatchJob :=
  match saveOutcome with
  | Except.ok _ => updateJobStatus job JobStatus.completed none now
  | Except.error _ => updateJobStatus job JobStatus.completed none now

/-- A status is terminal when it is completed or failed. -/
def JobStatus.isTerminal : JobStatus → Bool
  | JobStatus.completed => true
  | JobStatus.failed => true
  | _ => false

/-- The state invariant processed = successful + failed. -/
def progressInvariant (j : BatchJob) : Prop :=
  j.progress.processed = j.progress.successful + j.progress.failed

instance (j : BatchJob) : Decidable (progressInvariant j) := by
  unfold progressInvariant; infer_instance

/-- A concrete job that has been cancelled while its dispatcher run is still in
flight: status failed, error set, completedAt stamped at time 5. -/
def cancelledInFlightJob : BatchJob :=
  { id := "job-1"
    status := JobStatus.failed
    progress := { total := 10, processed := 4, successful := 3, failed := 1 }
    startedAt := some 1
    completedAt := some 5
    error := some "Job cancelled by user" }

/-! ## Claims C1 - C4 -/

/-- C1: the claim states that a terminal job is frozen, but updateJobStatus
and updateJobProgress carry no terminal guard.  Evaluating the code on a job
already cancelled (status failed, completedAt 5): the later updateJobStatus
call of the dispatcher sets the status to completed and restamps completedAt,
and updateJobProgress still advances the counters. -/
theorem updateJobStatus_overwrites_terminal :
    (updateJobStatus cancelledInFlightJob JobStatus.completed none 99).status
        = JobStatus.completed
    ∧ (updateJobStatus cancelledInFlightJob JobStatus.completed none 99).completedAt
        = some 99
    ∧ (updateJobProgress cancelledInFlightJob 3 2).progress.processed
        = cancelledInFlightJob.progress.processed + 3 := by
  refine ⟨rfl, rfl, rfl⟩

/-- C2 counterexample: a sink write error does not fail the job.  On a concrete
processing job whose save raises, the code still transitions to completed, so
the claimed terminal status failed is refuted. -/
theorem sink_error_not_failed :
    (finishAfterSave
        { id := "job-2", status := JobStatus.processing
          progress := { total := 1, processed := 1, successful := 1, failed := 0 }
          startedAt := some 0, completedAt := none, error := none }
        (Except.error "ENOSPC: no space left on device") 7).status
      ≠ JobStatus.failed := by
  decide

/-- C2 amended: for every job whose result-sink write fails, the error is
caught and logged and the job is still transitioned to completed. -/
theorem sink_error_still_completed (job : BatchJob) (e : String) (now : Nat) :
    (finishAfterSave job (Except.error e) now).status = JobStatus.completed := by
  simp [finishAfterSave, updateJobStatus]

/-- C3: the invariant processed = successful + failed holds at job creation
(all three counters are zero) and is preserved by every call to
updateJobProgress, whatever deltas the dispatcher passes. -/
theorem progress_invariant_preserved (jobId : String) (rowCount : Int) (now : Nat)
    (job : BatchJob) (p s : Int) (h : progressInvariant job) :
    progressInvariant (createJob jobId rowCount now)
    ∧ progressInvariant (updateJobProgress job p s) := by
  constructor
  · simp [progressInvariant, createJob]
  · simp only [progressInvariant, updateJobProgress] at *
    omega

/-- Witness for C3 at a concrete job and concrete deltas. -/
theorem progress_invariant_preserved_witness :
    progressInvariant (createJob "j" 5 0)
    ∧ progressInvariant (updateJobProgress cancelledInFlightJob 3 2) :=
  progress_invariant_preserved "j" 5 0 cancelledInFlightJob 3 2 (by decide)

/-- C4 counterexample: cancelling a concrete pending job stores the error
string written by the source, Job cancelled by user, which is not the exact
string claimed, cancelled by user. -/
theorem cancel_error_string_differs :
    ((cancelJob (createJob "job-3" 4 0) 9).2.error = some "cancelled by user")
      = False := by
  decide

/-- C4 amended: cancelling a non-terminal job returns true and leaves the job
with status failed, error exactly Job cancelled by user, and completedAt
stamped. -/
theorem cancelJob_sets_failed (job : BatchJob) (now : Nat)
    (h1 : job.status ≠ JobStatus.completed) (h2 : job.status ≠ JobStatus.failed) :
    (cancelJob job now).1 = true
    ∧ (cancelJob job now).2.status = JobStatus.failed
    ∧ (cancelJob job now).2.error = some "Job cancelled by user"
    ∧ (cancelJob job now).2.completedAt = some now := by
  have hcond : ¬(job.status = JobStatus.completed ∨ job.status = JobStatus.failed) := by
    intro hc; cases hc with
    | inl h => exact h1 h
    | inr h => exact h2 h
  simp [cancelJob, hcond, updateJobStatus]

/-- Witness for C4 on a concrete pending job. -/
theorem cancelJob_sets_failed_witness :
    ((cancelJob (createJob "job-3" 4 0) 9).1 = true
    ∧ (cancelJob (createJob "job-3" 4 0) 9).2.status = JobStatus.failed
    ∧ (cancelJob (createJob "job-3" 4 0) 9).2.error = some "Job cancelled by user"
    ∧ (cancelJob (createJob "job-3" 4 0) 9).2.completedAt = some 9) :=
  cancelJob_sets_failed (createJob "job-3" 4 0) 9 (by decide) (by decide)

/-! ## OSRM routing client (src/backend/src/services/osrmService.ts) -/

/-- A GeoJSON LineString, coordinates as (lon, lat) rationals. -/
structure LineString where
  coordinates : List (Rat × Rat)
deriving DecidableEq, Repr

/-- One route of an OSRM response; geometry is optional in the response type. -/
structure OSRMRoute where
  distance : Rat
  duration : Rat
  geometry : Option LineString
deriving DecidableEq, Repr

/-- The OSRM daemon response body (interface OSRMResponse). -/
structure OSRMResponse where
  code : String
  routes : List OSRMRoute
  message : Option String
deriving DecidableEq, Repr

/-- A routing request of the batch helper: transformed coordinates plus the
row bookkeeping. -/
structure RouteRequest where
  originLng : Rat
  originLat : Rat
  destLng : Rat
  destLat : Rat
  rowIndex : Nat
  originalData : List (String × String)
deriving DecidableEq, Repr

/-- Per-row outcome (interface RouteResult): the route payload is optional and
only present on success. -/
structure Route where
  distance : Rat
  duration : Rat
  geometry : LineString
deriving DecidableEq, Repr

structure RouteResult where
  rowIndex : Nat
  originalData : List (String × String)
  success : Bool
  route : Option Route
  error : Option String
deriving DecidableEq, Repr

/-- The network is modelled as a function from a request to either the parsed
daemon response or an axios-level error message. -/
def Network : Type := RouteRequest → Except String OSRMResponse

/-- OSRMService.calculateRoute: performs the HTTP GET (the network oracle) and
throws when the response code is not Ok.  In the source, that throw is raised
inside its own try block and re-caught by the catch clause, which, since the
error is not an axios error, rethrows the generic message Routing calculation
failed; the embedding returns that surfaced message directly. -/
def calculateRoute (net : Network) (req : RouteRequest) : Except String OSRMResponse :=
  match net req with
  | Except.error e => Except.error e
  | Except.ok resp =>
      if resp.code ≠ "Ok" then Except.error "Routing calculation failed"
      else Except.ok resp

/-- The per-request closure of OSRMService.calculateBatchRoutes: every failure
of calculateRoute is caught and becomes a failed outcome carrying the error
message; a response with an empty route list yields No route found; a first
route without geometry yields Invalid route data. -/
def processCoord (net : Network) (coord : RouteRequest) : RouteResult :=
  match calculateRoute net coord with
  | Except.error e =>
      { rowIndex := coord.rowIndex, originalData := coord.originalData
        success := false, route := none, error := some e }
  | Except.ok resp =>
      match resp.routes with
      | [] =>
          { rowIndex := coord.rowIndex, originalData := coord.originalData
            success := false, route := none, error := some "No route found" }
      | route :: _ =>
          match route.geometry with
          | some geom =>
              { rowIndex := coord.rowIndex, originalData := coord.originalData
                success := true
                route := some { distance := route.distance, duration := route.duration
                                geometry := geom }
                error := none }
          | none =>
              { rowIndex := coord.rowIndex, originalData := coord.originalData
                success := false, route := none, error := some "Invalid route data" }

/-- OSRMService.calculateBatchRoutes: slices the request list into chunks of
maxConcurrent, fires every request of a chunk (all promises settle because the
per-request closure catches internally), and appends the settled values in
submission order.  The source loop never terminates when maxConcurrent is 0
(the slice is empty and the index does not advance); that configuration is
unreachable with the default of 50 and is mapped to the empty result here. -/
def calculateBatchRoutes (maxConcurrent : Nat) (net : Network) :
    List RouteRequest → List RouteResult
  | [] => []
  | c :: cs =>
      match maxConcurrent with
      | 0 => []
      | k + 1 =>
          ((c :: cs).take (k + 1)).map (processCoord net)
            ++ calculateBatchRoutes (k + 1) net ((c :: cs).drop (k + 1))
termination_by coords => coords.length
decreasing_by
  simp only [List.length_drop, List.length_cons]
  omega

/-! ## Claim C6 -/

/-- Chunked processing with a positive chunk size is the pointwise map. -/
theorem chunked_eq_map (k' : Nat) (net : Network) :
    ∀ coords : List RouteRequest,
      calculateBatchRoutes (k' + 1) net coords = coords.map (processCoord net)
  | [] => by simp [calculateBatchRoutes]
  | c :: cs => by
      rw [calculateBatchRoutes]
      rw [chunked_eq_map k' net ((c :: cs).drop (k' + 1))]
      rw [← List.map_append, List.take_append_drop]
termination_by coords => coords.length
decreasing_by
  simp only [List.length_drop, List.length_cons]
  omega

theorem calculateBatchRoutes_eq_map (k : Nat) (hk : 1 ≤ k) (net : Network)
    (coords : List RouteRequest) :
    calculateBatchRoutes k net coords = coords.map (processCoord net) := by
  obtain ⟨k', rfl⟩ : ∃ k', k = k' + 1 := ⟨k - 1, by omega⟩
  exact chunked_eq_map k' net coords

/-- C6: the batch helper returns exactly one outcome per request, in submission
order; a failed request yields a failed outcome in place, with its rowIndex and
original fields preserved, and never shortens the result list or aborts its
peers (processCoord is total). -/
theorem calculateBatchRoutes_one_outcome_per_request (k : Nat) (hk : 1 ≤ k)
    (net : Network) (coords : List RouteRequest) :
    (calculateBatchRoutes k net coords).length = coords.length
    ∧ calculateBatchRoutes k net coords = coords.map (processCoord net)
    ∧ (∀ req : RouteRequest,
        (processCoord net req).rowIndex = req.rowIndex
        ∧ (processCoord net req).originalData = req.originalData)
    ∧ (∀ req : RouteRequest, ∀ e : String, net req = Except.error e →
        (processCoord net req).success = false
        ∧ (processCoord net req).error = some e) := by
  refine ⟨?_, calculateBatchRoutes_eq_map k hk net coords, ?_, ?_⟩
  · rw [calculateBatchRoutes_eq_map k hk net coords, List.length_map]
  · intro req
    unfold processCoord
    rcases calculateRoute net req with e | resp
    · simp
    · rcases hr : resp.routes with _ | ⟨r, rs⟩
      · simp [hr]
      · rcases hg : r.geometry with _ | g <;> simp [hr, hg]
  · intro req e he
    unfold processCoord calculateRoute
    rw [he]
    simp

/-- Witness for C6: one unreachable-daemon request at the default chunk size
still produces exactly one failed outcome in place. -/
theorem calculateBatchRoutes_one_outcome_per_request_witness :
    letI req : RouteRequest :=
      { originLng := 2, originLat := 48, destLng := 3, destLat := 47
        rowIndex := 0, originalData := [("ox", "2")] }
    letI net : Network := fun _ => Except.error "OSRM service is not available"
    (calculateBatchRoutes 50 net [req]).length = [req].length
    ∧ calculateBatchRoutes 50 net [req] = [req].map (processCoord net)
    ∧ (∀ r : RouteRequest,
        (processCoord net r).rowIndex = r.rowIndex
        ∧ (processCoord net r).originalData = r.originalData)
    ∧ (∀ r : RouteRequest, ∀ e : String, net r = Except.error e →
        (processCoord net r).success = false
        ∧ (processCoord net r).error = some e) :=
  calculateBatchRoutes_one_outcome_per_request 50 (by decide) _ _

/-! ## Result writer (src/backend/src/services/resultService.ts) -/

/-- A coordinate reference system entry (interface Projection). -/
structure Projection where
  code : String
  nom : String
  proj4 : String
  region : String
  datum : String
  link : String
deriving DecidableEq, Repr

/-- Geometry options of a routing configuration; the tolerance field is
optional in the source. -/
structure GeometryOptions where
  exportGeometry : Bool
  simplifyGeometry : Bool
  simplificationTolerance : Option Rat
  straightLineGeometry : Bool
deriving DecidableEq, Repr

/-- A routing configuration (interface RouteConfiguration); the geometry
options block is itself optional. -/
structure RouteConfiguration where
  fileId : String
  projection : Projection
  originFields : String × String
  destinationFields : String × String
  geometryOptions : Option GeometryOptions
  outputFormat : Option String
deriving DecidableEq, Repr

/-- ResultService.createStraightLineGeometry: a line with fewer than two
vertices is returned unchanged, otherwise the two-point line from the first to
the last vertex. -/
def createStraightLineGeometry (g : LineString) : LineString :=
  if g.coordinates.length < 2 then g
  else { coordinates := [g.coordinates.headI, g.coordinates.getLastD (0, 0)] }

/-- Squared distance from the point p to the segment from a to b, following
ResultService.pointToLineDistance.  The source returns the Euclidean distance
through Math.sqrt; the embedding keeps the square, and every comparison the
algorithm performs between distances is translated by squaring both sides,
which is faithful because the square root is strictly monotone on the
nonnegative reals. -/
def pointToLineDistanceSq (p a b : Rat × Rat) : Rat :=
  let A := p.1 - a.1
  let B := p.2 - a.2
  let C := b.1 - a.1
  let D := b.2 - a.2
  let dot := A * C + B * D
  let lenSq := C * C + D * D
  if lenSq = 0 then A * A + B * B
  else
    let param := dot / lenSq
    let xx := if param < 0 then a.1 else if param > 1 then b.1 else a.1 + param * C
    let yy := if param < 0 then a.2 else if param > 1 then b.2 else a.2 + param * D
    let dx := p.1 - xx
    let dy := p.2 - yy
    dx * dx + dy * dy

/-- The scan of ResultService.douglasPeucker over the interior vertices:
returns the squared maximum deviation from the start-end segment together with
its index, starting from (0, 0) and updating on strict increase. -/
def maxDeviation (points : List (Rat × Rat)) : Rat × Nat :=
  let s := points.headI
  let e := points.getLastD (0, 0)
  (List.range' 1 (points.length - 2)).foldl
    (fun acc i =>
      let d := pointToLineDistanceSq (points.getD i (0, 0)) s e
      if acc.1 < d then (d, i) else acc)
    (0, 0)

/-- Decides whether the square root of a nonnegative dSq exceeds tol: always
when tol is negative, otherwise iff dSq exceeds tol squared.  This translates
the comparison maxDistance greater than tolerance of the source, where
maxDistance is a square root. -/
def sqrtGtTol (dSq tol : Rat) : Bool :=
  if tol < 0 then true else dSq > tol * tol

/-- ResultService.douglasPeucker with an explicit recursion-depth fuel.  When
the recursion is productive (the maximal deviation exceeds the tolerance at an
interior index) each recursive call strictly shortens the vertex list, so a
fuel equal to the list length is never exhausted for nonnegative tolerances;
for a negative tolerance the source recursion does not terminate on collinear
input, which the embedding maps to returning the points unchanged when the
fuel runs out. -/
def douglasPeuckerAux : Nat → List (Rat × Rat) → Rat → List (Rat × Rat)
  | 0, points, _ => points
  | fuel + 1, points, tol =>
      if points.length ≤ 2 then points
      else
        let md := maxDeviation points
        if sqrtGtTol md.1 tol then
          let leftPoints := douglasPeuckerAux fuel (points.take (md.2 + 1)) tol
          let rightPoints := douglasPeuckerAux fuel (points.drop md.2) tol
          leftPoints.dropLast ++ rightPoints
        else
          [points.headI, points.getLastD (0, 0)]

def douglasPeucker (points : List (Rat × Rat)) (tol : Rat) : List (Rat × Rat) :=
  douglasPeuckerAux points.length points tol

/-- ResultService.simplifyGeometry: lines with fewer than three vertices are
returned unchanged, otherwise the Douglas-Peucker reduction is applied. -/
def simplifyGeometry (g : LineString) (tolerance : Rat) : LineString :=
  if g.coordinates.length < 3 then g
  else { coordinates := douglasPeucker g.coordinates tolerance }

/-- The geometry branch of ResultService.saveGeoJSONResults: straight-line
geometry wins when set; the simplification branch requires both the
simplifyGeometry flag and a truthy tolerance, so an undefined or exactly zero
tolerance falls through to the identity. -/
def selectGeometry (geometryOptions : Option GeometryOptions) (geom : LineString) :
    LineString :=
  match geometryOptions with
  | none => geom
  | some opts =>
      if opts.straightLineGeometry then createStraightLineGeometry geom
      else if opts.simplifyGeometry then
        match opts.simplificationTolerance with
        | some t => if t ≠ 0 then simplifyGeometry geom t else geom
        | none => geom
      else geom

/-- JavaScript Math.round: floor of x + one half. -/
def jsRound (q : Rat) : Int := ⌊q + 1 / 2⌋

/-- One written feature: geometry (null when export is disabled) and the
properties object of the source, with the original row fields spread in. -/
structure Feature where
  geometry : Option LineString
  originalData : List (String × String)
  distance : Rat
  duration : Rat
  distance_km : Rat
  duration_minutes : Rat
  rowIndex : Nat
deriving DecidableEq, Repr

/-- The feature built for one successful result inside the write loop of
ResultService.saveGeoJSONResults.  The geometry is exported unless the
exportGeometry flag is present and explicitly false (the source compares with
strict inequality against false, so an absent options block exports). -/
def mkFeature (geometryOptions : Option GeometryOptions) (r : RouteResult)
    (route : Route) : Feature :=
  let geometry := selectGeometry geometryOptions route.geometry
  let exportFlag := match geometryOptions with
    | none => true
    | some o => o.exportGeometry
  { geometry := if exportFlag then some geometry else none
    originalData := r.originalData
    distance := route.distance
    duration := route.duration
    distance_km := (jsRound (route.distance / 10) : Rat) / 100
    duration_minutes := (jsRound (route.duration / 60 * 100) : Rat) / 100
    rowIndex := r.rowIndex }

/-- The write loop of ResultService.saveGeoJSONResults: a feature is written
for a result exactly when result.success and result.route are both truthy; all
other results are skipped. -/
def featuresOf (geometryOptions : Option GeometryOptions)
    (results : List RouteResult) : List Feature :=
  results.filterMap fun r =>
    match r.route with
    | some route => if r.success then some (mkFeature geometryOptions r route) else none
    | none => none

/-- The aggregate summary computed in JobService.processJob before saving. -/
structure Summary where
  total : Nat
  successful : Nat
  failed : Nat
  totalDistance : Rat
  totalDuration : Rat
deriving DecidableEq, Repr

/-- JobService.processJob summary: totals over the in-memory result list, with
failed derived as total minus successful and the distance and duration summed
over the successful rows. -/
def computeSummary (results : List RouteResult) : Summary :=
  let successful := results.filter fun r => r.success
  { total := results.length
    successful := successful.length
    failed := results.length - successful.length
    totalDistance := (successful.map fun r => (r.route.map Route.distance).getD 0).sum
    totalDuration := (successful.map fun r => (r.route.map Route.duration).getD 0).sum }

/-- The metadata object streamed at the end of the result document. -/
structure ResultMetadata where
  jobId : String
  summary : Summary
  generatedAt : Nat
  totalFeatures : Nat
  jobStartedAt : Option Nat
  jobCompletedAt : Option Nat
  jobDurationMs : Option Int
  jobDurationSeconds : Option Int
deriving DecidableEq, Repr

/-- The single document produced by the result writer: the feature array
followed by the inline metadata object. -/
structure FeatureCollectionDoc where
  features : List Feature
  metadata : ResultMetadata
deriving DecidableEq, Repr

def resultFilename (jobId : String) : String :=
  "routing_results_" ++ jobId ++ ".geojson"

/-- ResultService.saveGeoJSONResults: opens exactly one write stream, at the
path routing_results_<jobId>.geojson under the results directory, streams the
features of the successful rows and then an inline metadata object into that
same document, and closes the stream.  The call performs no other file write;
in particular no routing_metadata_<jobId> sibling document is produced
anywhere in the service.  The embedding returns the list of
(file name, document) writes the call performs. -/
def saveGeoJSONResults (jobId : String) (results : List RouteResult)
    (summary : Summary) (configuration : Option RouteConfiguration)
    (job : Option BatchJob) (now : Nat) : List (String × FeatureCollectionDoc) :=
  let geometryOptions := configuration.bind RouteConfiguration.geometryOptions
  let features := featuresOf geometryOptions results
  let startedAt := job.bind BatchJob.startedAt
  let completedAt := job.bind BatchJob.completedAt
  let dur : Option Int :=
    startedAt.map fun s => ((completedAt.getD now : Nat) : Int) - (s : Int)
  [(resultFilename jobId,
    { features := features
      metadata :=
        { jobId := jobId
          summary := summary
          generatedAt := now
          totalFeatures := features.length
          jobStartedAt := startedAt
          jobCompletedAt := if startedAt.isSome then completedAt else none
          jobDurationMs := dur
          jobDurationSeconds := dur.map fun d => jsRound ((d : Rat) / 1000) } })]

/-! ## Claims C7, C9, C5 -/

/-- C7: with simplification enabled and tolerance exactly 0, the geometry
post-processing is the identity: the truthiness guard on the tolerance skips
the simplification branch, so the original geometry is written unchanged. -/
theorem simplify_tolerance_zero_identity (opts : GeometryOptions) (geom : LineString)
    (h1 : opts.straightLineGeometry = false) (h2 : opts.simplifyGeometry = true)
    (h3 : opts.simplificationTolerance = some 0) :
    selectGeometry (some opts) geom = geom := by
  simp [selectGeometry, h1, h2, h3]

/-- A simplify configuration with tolerance zero. -/
def zeroToleranceOpts : GeometryOptions :=
  { exportGeometry := true
    simplifyGeometry := true
    simplificationTolerance := some 0
    straightLineGeometry := false }

/-- A three-vertex route geometry that genuine simplification would reduce. -/
def demoGeom : LineString := { coordinates := [(0, 0), (1, 5), (2, 0)] }

/-- Witness for C7 on a concrete geometry and options block. -/
theorem simplify_tolerance_zero_identity_witness :
    selectGeometry (some zeroToleranceOpts) demoGeom = demoGeom :=
  simplify_tolerance_zero_identity zeroToleranceOpts demoGeom rfl rfl rfl

theorem featuresOf_map_rowIndex (g : Option GeometryOptions) :
    ∀ results : List RouteResult,
      (∀ r ∈ results, r.success = true → r.route.isSome) →
      (featuresOf g results).map Feature.rowIndex
        = (results.filter fun r => r.success).map RouteResult.rowIndex
  | [], _ => rfl
  | r :: rs, hwf => by
      have hr := hwf r (by simp)
      have ih := featuresOf_map_rowIndex g rs fun x hx hs => hwf x (by simp [hx]) hs
      cases hs : r.success with
      | false =>
          rcases hroute : r.route with _ | route <;>
            simpa [featuresOf, List.filterMap_cons, List.filter_cons, hs, hroute]
              using ih
      | true =>
          rcases hroute : r.route with _ | route
          · exact absurd (hr hs) (by simp [hroute])
          · simpa [featuresOf, List.filterMap_cons, List.filter_cons, hs, hroute,
              mkFeature] using ih

theorem length_filter_not_success :
    ∀ results : List RouteResult,
      (results.filter fun r => !r.success).length
        = results.length - (results.filter fun r => r.success).length
  | [] => rfl
  | r :: rs => by
      have ih := length_filter_not_success rs
      have hle := List.length_filter_le (fun r : RouteResult => r.success) rs
      cases hs : r.success
      all_goals simp [List.filter_cons, hs, ih]
      all_goals omega

/-- C9: the result writer emits exactly one feature per successful row, in the
order of the result list, and no feature for a failed row, while the summary
still counts every row: total is the full row count and failed is the number
of unsuccessful rows.  The hypothesis, maintained by the pipeline, is that a
successful result carries its route payload. -/
theorem features_match_successful_rows (g : Option GeometryOptions)
    (results : List RouteResult)
    (hwf : ∀ r ∈ results, r.success = true → r.route.isSome) :
    (featuresOf g results).map Feature.rowIndex
        = (results.filter fun r => r.success).map RouteResult.rowIndex
    ∧ (featuresOf g results).length = (results.filter fun r => r.success).length
    ∧ (computeSummary results).total = results.length
    ∧ (computeSummary results).successful = (results.filter fun r => r.success).length
    ∧ (computeSummary results).failed = (results.filter fun r => !r.success).length := by
  have hmap := featuresOf_map_rowIndex g results hwf
  refine ⟨hmap, ?_, rfl, rfl, ?_⟩
  · simpa using congrArg List.length hmap
  · rw [length_filter_not_success results]
    rfl

/-- A successful route payload used by the concrete examples. -/
def demoRoute : Route :=
  { distance := 120, duration := 60
    geometry := { coordinates := [(2, 48), (3, 47)] } }

/-- One successful and one failed row, as the dispatcher produces them. -/
def demoResults : List RouteResult :=
  [ { rowIndex := 0, originalData := [("ox", "2")], success := true
      route := some demoRoute, error := none }
  , { rowIndex := 1, originalData := [("ox", "")], success := false
      route := none, error := some "Coordinate extraction failed: Invalid coordinate values" } ]

/-- Witness for C9 on the concrete two-row result list. -/
theorem features_match_successful_rows_witness :
    (featuresOf none demoResults).map Feature.rowIndex
        = (demoResults.filter fun r => r.success).map RouteResult.rowIndex
    ∧ (featuresOf none demoResults).length
        = (demoResults.filter fun r => r.success).length
    ∧ (computeSummary demoResults).total = demoResults.length
    ∧ (computeSummary demoResults).successful
        = (demoResults.filter fun r => r.success).length
    ∧ (computeSummary demoResults).failed
        = (demoResults.filter fun r => !r.success).length :=
  features_match_successful_rows none demoResults (by decide)

/-- A terminal completed job for the save example. -/
def completedDemoJob : BatchJob :=
  { id := "j", status := JobStatus.completed
    progress := { total := 2, processed := 2, successful := 1, failed := 1 }
    startedAt := some 10, completedAt := some 60, error := none }

/-- C5: evaluating the result writer for a concrete completed job shows the
write set of the save: the only file written is routing_results_j.geojson; the
job identifier and the summary are embedded inline in the metadata object of
that same document; and no routing_metadata_j sibling document is produced
under either extension. -/
theorem no_sibling_metadata_document :
    (let writes := saveGeoJSONResults "j" demoResults (computeSummary demoResults)
        none (some completedDemoJob) 70
    writes.map Prod.fst = ["routing_results_j.geojson"]
    ∧ "routing_metadata_j.json" ∉ writes.map Prod.fst
    ∧ "routing_metadata_j.geojson" ∉ writes.map Prod.fst
    ∧ (writes.head?.map fun w => w.2.metadata.jobId) = some "j"
    ∧ (writes.head?.map fun w => w.2.metadata.summary)
        = some (computeSummary demoResults)) := by
  refine ⟨rfl, by decide, by decide, rfl, rfl⟩

/-! ## Job registry housekeeping (JobService.cleanupOldJobs) -/

/-- The sort key of the housekeeping comparator: the startedAt timestamp, or 0
when absent (the source reads startedAt?.getTime() || 0). -/
def jobSortKey (j : BatchJob) : Nat := j.startedAt.getD 0

/-- The comparator of JobService.cleanupOldJobs orders registry entries by
startedAt in descending order, most recent first. -/
def newerFirst (a b : String × BatchJob) : Prop := jobSortKey b.2 ≤ jobSortKey a.2

instance : DecidableRel newerFirst := fun a b => by
  unfold newerFirst; infer_instance

instance : IsTotal (String × BatchJob) newerFirst :=
  ⟨fun _ _ => le_total _ _⟩

instance : IsTrans (String × BatchJob) newerFirst :=
  ⟨fun _ _ _ h1 h2 => le_trans h2 h1⟩

/-- JobService.cleanupOldJobs: sorts the registry entries by startedAt
descending and, when the count exceeds maxJobsKept (environment variable
MAX_JOBS_KEPT, default 100), deletes every entry beyond the first maxJobsKept,
with no condition on the status of the evicted jobs.  Modelled as the set of
retained entries; a stable sort stands in for the sort of the source. -/
def cleanupOldJobs (maxJobsKept : Nat) (jobs : List (String × BatchJob)) :
    List (String × BatchJob) :=
  let jobEntries := List.insertionSort newerFirst jobs
  if jobEntries.length > maxJobsKept then jobEntries.take maxJobsKept else jobs

/-- An old job still in status processing. -/
def oldProcessingJob : BatchJob :=
  { id := "a", status := JobStatus.processing
    progress := { total := 5, processed := 2, successful := 2, failed := 0 }
    startedAt := some 0, completedAt := none, error := none }

/-- A more recent completed job. -/
def newCompletedJob : BatchJob :=
  { id := "b", status := JobStatus.completed
    progress := { total := 1, processed := 1, successful := 1, failed := 0 }
    startedAt := some 10, completedAt := some 20, error := none }

/-! ## Claim C8 -/

/-- C8 counterexample: with the cap at 1 and two registry entries, the
housekeeping eviction removes the older entry although its status is
processing, refuting the claim that only terminal jobs are evicted. -/
theorem housekeeping_evicts_processing_job :
    oldProcessingJob.status = JobStatus.processing
    ∧ ("a", oldProcessingJob)
        ∉ cleanupOldJobs 1 [("a", oldProcessingJob), ("b", newCompletedJob)] := by
  refine ⟨rfl, by decide⟩

/-- C8 amended: the housekeeping loop caps the retained job records at
maxJobsKept and evicts the entries with the oldest startedAt regardless of
their status: when the registry exceeds the cap, exactly maxJobsKept entries
are retained and every evicted entry is at least as old as every retained
one. -/
theorem cleanupOldJobs_caps_and_evicts_oldest (k : Nat)
    (jobs : List (String × BatchJob)) (hk : k < jobs.length) :
    (cleanupOldJobs k jobs).length = k
    ∧ ∀ e ∈ jobs, e ∉ cleanupOldJobs k jobs →
        ∀ kept ∈ cleanupOldJobs k jobs, jobSortKey e.2 ≤ jobSortKey kept.2 := by
  have hperm := List.perm_insertionSort newerFirst jobs
  have hlen : (List.insertionSort newerFirst jobs).length = jobs.length :=
    hperm.length_eq
  have hcond : (List.insertionSort newerFirst jobs).length > k := by omega
  have hclean : cleanupOldJobs k jobs = (List.insertionSort newerFirst jobs).take k := by
    unfold cleanupOldJobs
    rw [if_pos hcond]
  have hsorted : List.Sorted newerFirst (List.insertionSort newerFirst jobs) :=
    List.sorted_insertionSort newerFirst jobs
  constructor
  · rw [hclean, List.length_take]
    omega
  · intro e he hnot kept hkept
    rw [hclean] at hnot hkept
    have hmem : e ∈ List.insertionSort newerFirst jobs := hperm.mem_iff.mpr he
    have hsplit : e ∈ (List.insertionSort newerFirst jobs).take k
        ++ (List.insertionSort newerFirst jobs).drop k := by
      rw [List.take_append_drop]
      exact hmem
    have hdrop : e ∈ (List.insertionSort newerFirst jobs).drop k := by
      rcases List.mem_append.mp hsplit with h | h
      · exact absurd h hnot
      · exact h
    have hpw : List.Pairwise newerFirst
        ((List.insertionSort newerFirst jobs).take k
          ++ (List.insertionSort newerFirst jobs).drop k) := by
      rw [List.take_append_drop]
      exact hsorted
    exact (List.pairwise_append.mp hpw).2.2 kept hkept e hdrop

/-- Witness for C8 amended at the concrete two-entry registry with cap 1. -/
theorem cleanupOldJobs_caps_and_evicts_oldest_witness :
    1 < ([("a", oldProcessingJob), ("b", newCompletedJob)] :
          List (String × BatchJob)).length
    ∧ ((cleanupOldJobs 1 [("a", oldProcessingJob), ("b", newCompletedJob)]).length = 1
      ∧ ∀ e ∈ [("a", oldProcessingJob), ("b", newCompletedJob)],
          e ∉ cleanupOldJobs 1 [("a", oldProcessingJob), ("b", newCompletedJob)] →
          ∀ kept ∈ cleanupOldJobs 1 [("a", oldProcessingJob), ("b", newCompletedJob)],
            jobSortKey e.2 ≤ jobSortKey kept.2) :=
  ⟨by decide, cleanupOldJobs_caps_and_evicts_oldest 1
    [("a", oldProcessingJob), ("b", newCompletedJob)] (by decide)⟩

/-! ## Projection transformer (src/backend/src/services/projectionService.ts) -/

/-- The proj4 library call is external native code; it is modelled as an
oracle from the source definition string and the input pair to either the
transformed pair or a thrown error message. -/
def Proj4 : Type := String → Rat × Rat → Except String (Rat × Rat)

/-- ProjectionService.isValidWGS84Coordinate: the WGS84 envelope check; the
NaN and finiteness tests of the source are vacuous on rationals. -/
def isValidWGS84Coordinate (longitude latitude : Rat) : Bool :=
  decide (-180 ≤ longitude) && decide (longitude ≤ 180)
    && decide (-90 ≤ latitude) && decide (latitude ≤ 90)

/-- ProjectionService.transformToWGS84: runs the proj4 forward transform to
WGS84 and rejects out-of-range results.  Both the library throw and the
validation throw are caught by the same catch clause, which rethrows the
single message built from the projection code. -/
def transformToWGS84 (lib : Proj4) (x y : Rat) (sourceProjection : Projection) :
    Except String (Rat × Rat) :=
  match lib sourceProjection.proj4 (x, y) with
  | Except.error _ =>
      Except.error ("Failed to transform coordinates from "
        ++ sourceProjection.code ++ " to WGS84")
  | Except.ok (longitude, latitude) =>
      if isValidWGS84Coordinate longitude latitude then
        Except.ok (longitude, latitude)
      else
        Except.error ("Failed to transform coordinates from "
          ++ sourceProjection.code ++ " to WGS84")

/-- One input entry of ProjectionService.transformBatch. -/
structure BatchCoordinate where
  x : Rat
  y : Rat
  rowIndex : Nat
  originalData : List (String × String)
deriving DecidableEq, Repr

/-- One output entry of ProjectionService.transformBatch. -/
structure TransformedCoordinate where
  rowIndex : Nat
  originalData : List (String × String)
  longitude : Rat
  latitude : Rat
  success : Bool
  error : Option String
deriving DecidableEq, Repr

/-- The per-entry closure of ProjectionService.transformBatch: a successful
transform yields the coordinates with success true; a thrown transform is
caught and yields success false with placeholder coordinates 0, 0 and the
error message.  It never rethrows. -/
def transformOne (lib : Proj4) (sourceProjection : Projection)
    (coord : BatchCoordinate) : TransformedCoordinate :=
  match transformToWGS84 lib coord.x coord.y sourceProjection with
  | Except.ok p =>
      { rowIndex := coord.rowIndex, originalData := coord.originalData
        longitude := p.1, latitude := p.2, success := true, error := none }
  | Except.error e =>
      { rowIndex := coord.rowIndex, originalData := coord.originalData
        longitude := 0, latitude := 0, success := false, error := some e }

/-- ProjectionService.transformBatch: a map of the per-entry closure over the
input list, in input order. -/
def transformBatch (lib : Proj4) (coordinates : List BatchCoordinate)
    (sourceProjection : Projection) : List TransformedCoordinate :=
  coordinates.map (transformOne lib sourceProjection)

/-! ## Claim C10 -/

theorem transformOne_rowIndex (lib : Proj4) (proj : Projection)
    (c : BatchCoordinate) : (transformOne lib proj c).rowIndex = c.rowIndex := by
  unfold transformOne
  rcases transformToWGS84 lib c.x c.y proj with e | p <;> simp

/-- C10: the batch projection transform is total by construction and returns
exactly one entry per input, in the same rowIndex order, and an entry whose
transformation failed is returned in place with success false, placeholder
coordinates 0 and 0, and an error message, rather than being omitted. -/
theorem transformBatch_total_ordered (lib : Proj4) (proj : Projection)
    (coordinates : List BatchCoordinate) :
    (transformBatch lib coordinates proj).length = coordinates.length
    ∧ (∀ i, ∀ h : i < coordinates.length,
        ((transformBatch lib coordinates proj).get ⟨i, by simpa [transformBatch] using h⟩).rowIndex
          = (coordinates.get ⟨i, h⟩).rowIndex)
    ∧ ∀ c : BatchCoordinate,
        (transformOne lib proj c).success = false →
        (transformOne lib proj c).longitude = 0
        ∧ (transformOne lib proj c).latitude = 0
        ∧ (transformOne lib proj c).error.isSome = true := by
  refine ⟨by simp [transformBatch], ?_, ?_⟩
  · intro i h
    simp [transformBatch, transformOne_rowIndex]
  · intro c
    unfold transformOne
    rcases transformToWGS84 lib c.x c.y proj with e | p <;> simp

/-- The WGS84 entry of the projection catalog. -/
def epsg4326 : Projection :=
  { code := "EPSG:4326", nom := "WGS 84"
    proj4 := "+proj=longlat +datum=WGS84 +no_defs"
    region := "World", datum := "WGS84", link := "" }

/-- A concrete library oracle that throws on abscissae beyond 600. -/
def demoLib : Proj4 := fun _ p =>
  if 600 < p.1 then Except.error "proj4: invalid coordinates" else Except.ok p

/-- Two concrete inputs, the second of which fails to transform. -/
def demoCoords : List BatchCoordinate :=
  [ { x := 2, y := 48, rowIndex := 0, originalData := [] }
  , { x := 700, y := 0, rowIndex := 1, originalData := [] } ]

/-- Witness for C10 at the concrete oracle and inputs. -/
theorem transformBatch_total_ordered_witness :
    (transformBatch demoLib demoCoords epsg4326).length = demoCoords.length
    ∧ (∀ i, ∀ h : i < demoCoords.length,
        ((transformBatch demoLib demoCoords epsg4326).get
            ⟨i, by simpa [transformBatch] using h⟩).rowIndex
          = (demoCoords.get ⟨i, h⟩).rowIndex)
    ∧ ∀ c : BatchCoordinate,
        (transformOne demoLib epsg4326 c).success = false →
        (transformOne demoLib epsg4326 c).longitude = 0
        ∧ (transformOne demoLib epsg4326 c).latitude = 0
        ∧ (transformOne demoLib epsg4326 c).error.isSome = true :=
  transformBatch_total_ordered demoLib epsg4326 demoCoords

end OSRMBatch
